import Mathlib

/-!
Verification development for the `l-rust` tree-walking interpreter
(scanner → recursive-descent Lox-style parser → evaluator with a mutable
variable environment).

Shallow embedding conventions:
* `src/crates/common/src/token.rs` → `TokenType`, `Token`;
* `src/crates/common/src/value.rs` → `Value` (the `f64` payload of
  `Value::Number` is modelled as `Rat`; every computation considered in this
  development stays on small integer-valued numbers, where `f64` arithmetic
  is exact, so no rounding behaviour is modelled);
* `src/crates/common/src/interpreter.rs` → `Environment`, `InterpError`,
  `Interp.evaluate`, `Interp.execute`, `Interp.interpret`
  (mutation of the shared `Rc<RefCell<Environment>>` becomes explicit state
  passing; a Rust panic — `todo!()`, `unwrap()` on `None`, `unreachable!()`,
  out-of-bounds indexing — becomes the distinguished outcome `crash`);
* `src/crates/intepreter/src/scanner/scanner.rs` → `Scanner` and the
  `Scanner.*` functions (source text as `List Char`; all inputs considered
  are ASCII, where Rust byte indices and `chars()` indices agree);
* `src/crates/common/src/parser.rs` → `ParseErr`, `PState` and the
  `Parser.*` functions (the `RefCell<usize>` position becomes explicit
  state; recursive-descent functions take a fuel parameter, an embedding
  artifact — `PR.diverge` marks fuel exhaustion and is never the result of
  any run appearing in a theorem).
-/

/-- Token categories, from the Rust enum `TokenType` in token.rs (one
constructor per variant, same names). -/
inductive TokenType where
  | LeftParen
  | RightParen
  | LeftBrace
  | RightBrace
  | COMMA
  | DOT
  | MINUS
  | PLUS
  | COLON
  | SLASH
  | STAR
  | QUOTESTRING
  | BANG
  | BangEqual
  | EQUAL
  | EqualEqual
  | GREATER
  | GreaterEqual
  | LESS
  | LessEqual
  | IDENTIFIER
  | STRING
  | NUMBER
  | SPACE
  | SLASHRETURN
  | TAB
  | NEWLINE
  | SEMICOLON
  | AND
  | CLASS
  | ELSE
  | FALSE
  | FUN
  | FOR
  | IF
  | NIL
  | OR
  | PRINT
  | RETURN
  | SUPER
  | THIS
  | TRUE
  | VAR
  | WHILE
  | EOF
deriving DecidableEq, Repr

/-- The `Token` record of token.rs: category, lexeme, optional literal
payload, source line. -/
structure Token where
  token_type : TokenType
  lexeme : String
  literal : Option String
  line : Nat
deriving DecidableEq, Repr

/-- Runtime values, from value.rs `Value`. `Number` carries `Rat` in place
of `f64` (exact on the integer-valued data used throughout). Equality is
structural, as in the Rust `PartialEq` impl. -/
inductive Value where
  | Boolean (b : Bool)
  | Nil
  | Number (n : Rat)
  | String (s : String)
deriving DecidableEq, Repr

/-- Accumulates the numeric value of a run of decimal digits (models
`str::parse` on the digit strings the scanner produces). -/
def digitsVal (cs : List Char) : Nat := cs.foldl (fun n c => n * 10 + (c.toNat - 48)) 0

/-- Splits a numeric lexeme at the first dot (helper for `strToRat`). -/
def splitDot : List Char → List Char × Option (List Char)
  | [] => ([], none)
  | c :: rest =>
    if c = '.' then ([], some rest)
    else
      let (i, f) := splitDot rest
      (c :: i, f)

/-- Models `literal.parse::<f64>().unwrap()` on the decimal lexemes produced
by the scanner (digits, optionally a dot and more digits); exact where
`f64` parsing is exact. -/
def strToRat (s : String) : Rat :=
  match splitDot s.data with
  | (i, none) => (digitsVal i : Rat)
  | (i, some f) => (digitsVal i : Rat) + (digitsVal f : Rat) / ((10 : Rat) ^ f.length)

/-- The conversion `Value::from_token` of value.rs. `none` models the Rust
panics: `literal.unwrap()` on `None`, and the `panic!` on an unsupported
token category. -/
def Value.from_token (token : Token) : Option Value :=
  match token.token_type with
  | .FALSE => some (.Boolean false)
  | .TRUE => some (.Boolean true)
  | .NIL => some .Nil
  | .NUMBER => token.literal.map (fun s => .Number (strToRat s))
  | .STRING => token.literal.map Value.String
  | _ => none

/-- Expression AST from expression.rs `ExprKind` (same constructor names).
The `Expr` wrapper's `Uuid` field only backs `PartialEq`/`Hash` on nodes
and plays no role in parsing or evaluation, so the wrapper is flattened
away. -/
inductive Expr where
  | Assign (name : Token) (value : Expr)
  | Binary (left : Expr) (operator : Token) (right : Expr)
  | Call (callee : Expr) (paren : Token) (arguments : List Expr)
  | Get (object : Expr) (name : Token)
  | Grouping (inner : Expr)
  | Literal (value : Option Value)
  | Logical (left : Expr) (operator : Token) (right : Expr)
  | Set (object : Expr) (name : Token) (value : Expr)
  | Super (keyword : Token) (method : Token)
  | This (token : Token)
  | Unary (operator : Token) (right : Expr)
  | Variable (name : Token)
deriving Repr

/-- Statement AST from expression.rs `Stmt` (same constructor names). -/
inductive Stmt where
  | Block (stmts : List Stmt)
  | Class (name : Token) (superclass : Option Expr) (methods : List Stmt)
  | Expression (e : Expr)
  | Function (name : Token) (params : List Token) (body : List Stmt)
  | If (condition : Expr) (then_branch : Stmt) (else_branch : Option Stmt)
  | Print (e : Expr)
  | Return (keyword : Token) (value : Option Expr)
  | Var (name : Token) (initializer : Option Expr)
  | While (condition : Expr) (body : Stmt)
deriving Repr

/-- The interpreter's `Error` enum from interpreter.rs. -/
inductive InterpError where
  | Runtime (message : String) (line : Nat)
  | Return (value : Value)
deriving DecidableEq, Repr

/-- The `Environment` of interpreter.rs: its `HashMap<String, Value>` is
modelled extensionally as a finite partial map. -/
def Environment := String → Option Value

/-- A fresh `Environment::default()`: no bindings. -/
def Environment.empty : Environment := fun _ => none

/-- `Environment::define`: unconditionally inserts/overwrites the binding. -/
def Environment.define (env : Environment) (name : String) (v : Value) : Environment :=
  fun n => if n = name then some v else env n

/-- `Environment::get`: the bound value, or the Undefined-Variable runtime
error (message text as in the source, typo included) carrying the token's
line. -/
def Environment.get (env : Environment) (token : Token) : Except InterpError Value :=
  match env token.lexeme with
  | some v => .ok v
  | none => .error (.Runtime ("Undefined varliable " ++ token.lexeme) token.line)

/-- `Environment::assign`: `self.get(name).map(|_| self.define(lexeme, value))` —
overwrite only an existing binding, otherwise fail with `get`'s error. The
Rust method mutates `self` and returns `Result<(), Error>`; here the new
environment is returned on success. -/
def Environment.assign (env : Environment) (name : Token) (v : Value) :
    Except InterpError Environment :=
  match Environment.get env name with
  | .ok _ => .ok (Environment.define env name.lexeme v)
  | .error e => .error e

/-- Result of running a piece of interpreter code: a value, a propagated
runtime `Err`, or a Rust panic (`crash`). `err` also carries the
environment as left behind by any mutations before the failure (the Rust
environment lives in a shared `RefCell`). -/
inductive Outcome (α : Type) where
  | ok (a : α)
  | err (e : InterpError) (env : Environment)
  | crash

namespace Interp

/-- `Interpreter::evaluate` from interpreter.rs, with the shared
`RefCell<Environment>` made explicit: each successful evaluation returns
the value together with the environment. `crash` models the panics in the
source: `value.unwrap()` on a payload-less literal, the `todo!()` arms
(Call, Get, Logical, Set, Super, This) and the `unreachable!()` arms for
operator tokens that never reach those positions. -/
def evaluate (env : Environment) : Expr → Outcome (Value × Environment)
  | .Literal (some v) => .ok (v, env)
  | .Literal none => .crash
  | .Assign name value =>
    match evaluate env value with
    | .ok (v, env1) =>
      -- `let _ = self.enviorment.borrow_mut().assign(name, value)` — the
      -- Result is discarded; a failed assign leaves the environment as is.
      (match Environment.assign env1 name v with
       | .ok env2 => .ok (v, env2)
       | .error _ => .ok (v, env1))
    | .err e env1 => .err e env1
    | .crash => .crash
  | .Binary left operator right =>
    match evaluate env left with
    | .ok (left_result, env1) =>
      (match evaluate env1 right with
       | .ok (right_result, env2) =>
         (match operator.token_type with
          | .MINUS =>
            (match left_result, right_result with
             | .Number l, .Number r => .ok (.Number (l - r), env2)
             | _, _ => .err (.Runtime "Operands must be numbers" operator.line) env2)
          | .SLASH =>
            (match left_result, right_result with
             | .Number l, .Number r => .ok (.Number (l / r), env2)
             | _, _ => .err (.Runtime "Operands must be numbers" operator.line) env2)
          | .STAR =>
            (match left_result, right_result with
             | .Number l, .Number r => .ok (.Number (l * r), env2)
             | _, _ => .err (.Runtime "Operands must be numbers" operator.line) env2)
          | .PLUS =>
            (match left_result, right_result with
             | .Number l, .Number r => .ok (.Number (l + r), env2)
             | .String l, .String r => .ok (.String (l ++ r), env2)
             | _, _ =>
               .err (.Runtime "Operands must be two numbers or two strings" operator.line) env2)
          | .GREATER =>
            (match left_result, right_result with
             | .Number l, .Number r => .ok (.Boolean (decide (l > r)), env2)
             | _, _ => .err (.Runtime "Operands must be numbers" operator.line) env2)
          | .GreaterEqual =>
            (match left_result, right_result with
             | .Number l, .Number r => .ok (.Boolean (decide (l ≥ r)), env2)
             | _, _ => .err (.Runtime "Operands must be numbers" operator.line) env2)
          | .LESS =>
            (match left_result, right_result with
             | .Number l, .Number r => .ok (.Boolean (decide (l < r)), env2)
             | _, _ => .err (.Runtime "Operands must be numbers" operator.line) env2)
          | .LessEqual =>
            (match left_result, right_result with
             | .Number l, .Number r => .ok (.Boolean (decide (l ≤ r)), env2)
             | _, _ => .err (.Runtime "Operands must be numbers" operator.line) env2)
          | .BangEqual => .ok (.Boolean (decide ¬(left_result = right_result)), env2)
          | .EqualEqual => .ok (.Boolean (decide (left_result = right_result)), env2)
          | _ => .crash)
       | .err e env2 => .err e env2
       | .crash => .crash)
    | .err e env1 => .err e env1
    | .crash => .crash
  | .Call _ _ _ => .crash
  | .Get _ _ => .crash
  | .Grouping inner => evaluate env inner
  | .Logical _ _ _ => .crash
  | .Set _ _ _ => .crash
  | .Super _ _ => .crash
  | .This _ => .crash
  | .Unary operator right =>
    match evaluate env right with
    | .ok (result, env1) =>
      (match operator.token_type with
       | .MINUS =>
         (match result with
          | .Number n => .ok (.Number (-n), env1)
          | _ => .err (.Runtime "Operand must be a number" operator.line) env1)
       | .BANG =>
         (match result with
          | .Boolean b => .ok (.Boolean !b, env1)
          | .Nil => .ok (.Boolean true, env1)
          | _ => .err (.Runtime "Operand must be a boolean" operator.line) env1)
       | _ => .crash)
    | .err e env1 => .err e env1
    | .crash => .crash
  | .Variable name =>
    -- `lookup_variable` delegates to `Environment::get`.
    match Environment.get env name with
    | .ok v => .ok (v, env)
    | .error e => .err e env

/-- One line written to standard output by the interpreter: either the
`Display` form of a printed value or a reported `[Error]:` line. -/
inductive Output where
  | val (v : Value)
  | errReport (e : InterpError)

/-- `Interpreter::execute` from interpreter.rs. The six stubbed statement
variants (`Block`, `Class`, `Function`, `If`, `Return`, `While`) are all
`todo!()` in the source, hence `crash`. On success, the new environment and
the list of printed values are returned. -/
def execute (env : Environment) : Stmt → Outcome (Environment × List Output)
  | .Expression expression =>
    (match evaluate env expression with
     | .ok (_, env1) => .ok (env1, [])
     | .err e env1 => .err e env1
     | .crash => .crash)
  | .Print expession =>
    (match evaluate env expession with
     | .ok (v, env1) => .ok (env1, [.val v])
     | .err e env1 => .err e env1
     | .crash => .crash)
  | .Var name initializer =>
    (match initializer with
     | some i =>
       (match evaluate env i with
        | .ok (v, env1) => .ok (Environment.define env1 name.lexeme v, [])
        | .err e env1 => .err e env1
        | .crash => .crash)
     | none => .ok (Environment.define env name.lexeme .Nil, []))
  | .Block _ => .crash
  | .Class _ _ _ => .crash
  | .Function _ _ _ => .crash
  | .If _ _ _ => .crash
  | .Return _ _ => .crash
  | .While _ _ => .crash

/-- `Interpreter::interpret`: runs the statements in order; a statement's
runtime `Err` is printed (`[Error]: …`) and execution continues with the
next statement; a panic anywhere aborts the whole run (`none`). -/
def interpret (env : Environment) : List Stmt → Option (Environment × List Output)
  | [] => some (env, [])
  | statement :: rest =>
    match execute env statement with
    | .ok (env1, out) =>
      (interpret env1 rest).map (fun r => (r.1, out ++ r.2))
    | .err e env1 =>
      (interpret env1 rest).map (fun r => (r.1, .errReport e :: r.2))
    | .crash => none

end Interp

/-- Recognizer for the six statement variants whose `execute` arms are
`todo!()` stubs in interpreter.rs. -/
def Stmt.isStubbed : Stmt → Bool
  | .Block _ | .Class _ _ _ | .Function _ _ _ | .If _ _ _ | .Return _ _ | .While _ _ => true
  | .Expression _ | .Print _ | .Var _ _ => false

/-- Models Rust's `code.get(a..b)` on the (ASCII) character list: the slice
when the range is valid, `none` otherwise. -/
def listSlice (l : List Char) (a b : Nat) : Option (List Char) :=
  if a ≤ b ∧ b ≤ l.length then some ((l.drop a).take (b - a)) else none

/-- The `Scanner` state of scanner.rs (`code` as a character list; the
claims only involve ASCII sources, where byte and character indexing
agree). -/
structure Scanner where
  code : List Char
  tokens : List Token
  start : Nat
  current : Nat
  line : Nat
  had_error : Bool

namespace Scanner

/-- `Scanner::new`. -/
def new (code : String) : Scanner :=
  { code := code.data, tokens := [], start := 0, current := 0, line := 0, had_error := false }

/-- `Scanner::is_at_end`: `self.current > self.code.len() - 1`, with Rust's
`usize` subtraction rendered as truncated `Nat` subtraction. (On empty
source the Rust expression underflows — a debug-build panic — so only
nonempty sources are considered below, as in every claim.) -/
def is_at_end (s : Scanner) : Bool := decide (s.current > s.code.length - 1)

/-- `Scanner::advance`: the character at `current` (advancing past it), or
`'\x00'` without advancing when past the end. -/
def advance (s : Scanner) : Char × Scanner :=
  match s.code[s.current]? with
  | some c => (c, { s with current := s.current + 1 })
  | none => ('\x00', s)

/-- `Scanner::char_at` (`chars().nth(n)`); the Rust method panics on
`None`, but every call site below guards the index, so the default is
unreachable. -/
def char_at (s : Scanner) (n : Nat) : Char := (s.code[n]?).getD '\x00'

/-- `Scanner::peek`. -/
def peek (s : Scanner) : Char :=
  if is_at_end s then '\x00' else char_at s s.current

/-- `Scanner::peek_next`. -/
def peek_next (s : Scanner) : Char :=
  if s.current + 1 ≥ s.code.length then '\x00' else char_at s (s.current + 1)

/-- `Scanner::match_token_and_advance`. -/
def match_token_and_advance (s : Scanner) (expected : Char) : Bool × Scanner :=
  if is_at_end s then (false, s)
  else if char_at s s.current ≠ expected then (false, s)
  else (true, { s with current := s.current + 1 })

/-- `Scanner::match_double`: two-char token when the next character is the
expected one, the one-char token when it differs, and — per the source and
its own comment ("if at end of file return EOF") — `EOF` when the operator
was the last character of the input. -/
def match_double (s : Scanner) (expected : Char) (one_char_token two_char_token : TokenType) :
    TokenType × Scanner :=
  if is_at_end s then (.EOF, s)
  else if char_at s s.current ≠ expected then (one_char_token, s)
  else (two_char_token, { s with current := s.current + 1 })

/-- `Scanner::add_token_with_literal`: pushes a token whose lexeme is
`code[start..current]`; when that slice is invalid the Rust code pushes an
`EOF` token with lexeme `"\0"` instead. -/
def add_token_with_literal (s : Scanner) (token_type : TokenType) (literal : Option String) :
    Scanner :=
  match listSlice s.code s.start s.current with
  | some lexeme =>
    { s with tokens := s.tokens ++ [⟨token_type, String.mk lexeme, literal, s.line⟩] }
  | none => { s with tokens := s.tokens ++ [⟨.EOF, "\x00", literal, s.line⟩] }

/-- `Scanner::add_token`. -/
def add_token (s : Scanner) (token_type : TokenType) : Scanner :=
  add_token_with_literal s token_type none

/-- The `KEYWORDS` table of scanner.rs with its `unwrap_or(IDENTIFIER)`
default. -/
def keywords (text : String) : TokenType :=
  if text = "and" then .AND
  else if text = "class" then .CLASS
  else if text = "else" then .ELSE
  else if text = "false" then .FALSE
  else if text = "for" then .FOR
  else if text = "fun" then .FUN
  else if text = "if" then .IF
  else if text = "nil" then .NIL
  else if text = "or" then .OR
  else if text = "print" then .PRINT
  else if text = "return" then .RETURN
  else if text = "super" then .SUPER
  else if text = "this" then .THIS
  else if text = "true" then .TRUE
  else if text = "var" then .VAR
  else if text = "while" then .WHILE
  else .IDENTIFIER

/-- The maximal-run loop of `Scanner::identifier`
(`while self.peek().is_alphanumeric()`); fuel bounds the iteration count
(each step advances `current`, so `code.length` steps always suffice). -/
def identifierLoop : Nat → Scanner → Scanner
  | 0, s => s
  | fuel + 1, s => if (peek s).isAlphanum then identifierLoop fuel (advance s).2 else s

/-- `Scanner::identifier`. The `unwrap()` on the lexeme slice is guarded in
every actual call (`start < current ≤ len`), so the `getD` default is
unreachable. -/
def identifier (s : Scanner) : Scanner :=
  let s := identifierLoop s.code.length s
  let text := String.mk ((listSlice s.code s.start s.current).getD [])
  add_token s (keywords text)

/-- The digit-run loop of `Scanner::number` (`while self.peek().is_digit(10)`). -/
def digitLoop : Nat → Scanner → Scanner
  | 0, s => s
  | fuel + 1, s => if (peek s).isDigit then digitLoop fuel (advance s).2 else s

/-- `Scanner::number`: integer digit run, then an optional fractional part
(only if a digit follows the dot), then a NUMBER token carrying the lexeme
as its literal payload; on an invalid slice the Rust code only prints and
emits nothing. -/
def number (s : Scanner) : Scanner :=
  let s := digitLoop s.code.length s
  let s :=
    if peek s = '.' ∧ (peek_next s).isDigit then digitLoop s.code.length (advance s).2 else s
  match listSlice s.code s.start s.current with
  | some literal => add_token_with_literal s .NUMBER (some (String.mk literal))
  | none => s

/-- The scan-to-closing-quote loop of `Scanner::string`. -/
def stringLoop : Nat → Scanner → Scanner
  | 0, s => s
  | fuel + 1, s =>
    if peek s ≠ '"' ∧ ¬is_at_end s then
      let s := if peek s = '\n' then { s with line := s.line + 1 } else s
      stringLoop fuel (advance s).2
    else s

/-- `Scanner::string`: consume through the closing quote (an unterminated
string is only reported by a print in the source — no token, no flag), then
a STRING token whose payload excludes the quotes; on an invalid slice the
Rust code only prints and emits nothing. -/
def stringFn (s : Scanner) : Scanner :=
  let s := stringLoop s.code.length s
  let s := (advance s).2
  match listSlice s.code (s.start + 1) (s.current - 1) with
  | some literal => add_token_with_literal s .STRING (some (String.mk literal))
  | none => s

/-- `TokenType::from_str` (strum) restricted to the single-character
strings `scan_token` feeds it: the single-character serializations of the
enum. `none` models strum's `Err`. -/
def from_str_char : Char → Option TokenType
  | '(' => some .LeftParen
  | ')' => some .RightParen
  | '\x7b' => some .LeftBrace
  | '\x7d' => some .RightBrace
  | ',' => some .COMMA
  | '.' => some .DOT
  | '-' => some .MINUS
  | '+' => some .PLUS
  | ':' => some .COLON
  | '/' => some .SLASH
  | '*' => some .STAR
  | '"' => some .QUOTESTRING
  | '!' => some .BANG
  | '=' => some .EQUAL
  | '>' => some .GREATER
  | '<' => some .LESS
  | ' ' => some .SPACE
  | '\r' => some .SLASHRETURN
  | '\t' => some .TAB
  | '\n' => some .NEWLINE
  | ';' => some .SEMICOLON
  | '\x00' => some .EOF
  | _ => none

/-- The `TWO_CHAR_TOKENS` map of scanner.rs: the expected second character
of a potential two-character operator. -/
def twoCharSecond : Char → Option Char
  | '!' => some '='
  | '=' => some '='
  | '<' => some '='
  | '>' => some '='
  | _ => none

/-- The two-character category `TokenType::from_str(&double_token_str).unwrap()`
computed by `scan_token` (that unwrap cannot fail for the four keys of
`TWO_CHAR_TOKENS`; the default is unreachable). -/
def twoCharToken : Char → TokenType
  | '!' => .BangEqual
  | '=' => .EqualEqual
  | '<' => .LessEqual
  | '>' => .GreaterEqual
  | _ => .EOF

/-- The line-comment loop of `scan_token`'s SLASH arm
(`while self.peek() != '\n' && !self.is_at_end()`). -/
def commentLoop : Nat → Scanner → Scanner
  | 0, s => s
  | fuel + 1, s =>
    if peek s ≠ '\n' ∧ ¬is_at_end s then commentLoop fuel (advance s).2 else s

/-- `Scanner::scan_token` from scanner.rs, arm for arm: identifiers,
numbers, the two-character-operator dispatch via `match_double`, the
whitespace/semicolon/newline/comment/string special cases, and the
had-error flag for unrecognized characters. Note that the SEMICOLON arm
emits no token (it only adjusts `line`/`current`). -/
def scan_token (s : Scanner) : Scanner :=
  let (c, s) := advance s
  if c.isAlpha then identifier s
  else if c.isDigit then number s
  else
    match from_str_char c with
    | some token_type =>
      (match twoCharSecond c with
       | some second =>
         let (token_to_add, s) := match_double s second token_type (twoCharToken c)
         add_token s token_to_add
       | none =>
         (match token_type with
          | .SPACE | .SLASHRETURN | .TAB => s
          | .SEMICOLON =>
            if peek_next s = '\n' then (advance s).2 else { s with line := s.line + 1 }
          | .NEWLINE => { s with line := s.line + 1 }
          | .SLASH =>
            let (matched, s) := match_token_and_advance s '/'
            if matched then commentLoop s.code.length s else add_token s token_type
          | .QUOTESTRING => stringFn s
          | _ => add_token s token_type))
    | none => { s with had_error := true }

/-- The `while !self.is_at_end()` loop of `Scanner::scan_tokens`
(each iteration sets `start := current` and scans one token); fuel bounds
the iteration count. -/
def scanLoop : Nat → Scanner → Scanner
  | 0, s => s
  | fuel + 1, s =>
    if is_at_end s then s else scanLoop fuel (scan_token { s with start := s.current })

/-- `Scanner::scan_tokens` run on a source string: the token vector after
the scan loop. Each loop iteration advances `current` by at least one, so
`code.length + 1` fuel always suffices. Note: no EOF sentinel is appended
at the end of the loop. -/
def scanTokens (source : String) : List Token :=
  (scanLoop (source.length + 1) (new source)).tokens

end Scanner

/-- The parser's `Error` enum from parser.rs. -/
inductive ParseErr where
  | ParseErrorCustom (msg : String)
  | ParseErrorToken (token : Token) (message : String)
  | ParseErrorGeneric
deriving DecidableEq, Repr

/-- The parser's mutable state: the `RefCell<usize>` position and the
`RefCell<Vec<Error>>` error list (the token vector itself is immutable and
passed separately). -/
structure PState where
  position : Nat
  errors : List ParseErr
deriving Repr

/-- Result of running a parser method: `ok`/`perr` mirror Rust's
`Ok`/`Err` and carry the state left behind; `crash` models a panic
(out-of-bounds `Vec` indexing in `peek`/`previous`, or the `usize`
underflow of `previous` at position 0); `diverge` marks fuel exhaustion,
an artifact of the embedding that no run appearing below ever reaches. -/
inductive PR (α : Type) where
  | ok (a : α) (s : PState)
  | perr (e : ParseErr) (s : PState)
  | crash
  | diverge
deriving Repr

namespace Parser

/-- `Parser::peek`: `self.tokens[*self.position.borrow()]` — `none` is the
out-of-bounds panic. -/
def peek (tks : List Token) (s : PState) : Option Token :=
  tks[s.position]?

/-- `Parser::previous`: `self.tokens[*self.position.borrow() - 1]` —
`none` models both the `usize` underflow at position 0 and an
out-of-bounds index. -/
def previous (tks : List Token) (s : PState) : Option Token :=
  if s.position = 0 then none else tks[s.position - 1]?

/-- `Parser::is_at_end`: whether `peek` is the EOF token (panics when
`peek` does). -/
def is_at_end (tks : List Token) (s : PState) : Option Bool :=
  (peek tks s).map (fun t => t.token_type == TokenType.EOF)

/-- `Parser::advance`: step past the current token unless at end, then
return `previous`. -/
def advance (tks : List Token) (s : PState) : Option (Token × PState) := do
  let atEnd ← is_at_end tks s
  let s1 := if !atEnd then { s with position := s.position + 1 } else s
  let t ← previous tks s1
  pure (t, s1)

/-- `Parser::check`: `false` at end, otherwise whether `peek` has the given
category. -/
def check (tks : List Token) (token_type : TokenType) (s : PState) : Option Bool := do
  let atEnd ← is_at_end tks s
  if atEnd then pure false
  else do
    let t ← peek tks s
    pure (t.token_type == token_type)

/-- `Parser::match_token`: try each candidate category in order, advancing
past the first match. -/
def match_token (tks : List Token) : List TokenType → PState → Option (Option Token × PState)
  | [], s => some (none, s)
  | token_type :: rest, s => do
    let c ← check tks token_type s
    if c then do
      let (t, s1) ← advance tks s
      pure (some t, s1)
    else match_token tks rest s

/-- `Parser::error`: formats the message exactly as the source does
(`"{msg} at end"` at EOF, otherwise `"line: {line} at {lexeme}, {msg}"`). -/
def errorFn (token : Token) (message : String) : ParseErr :=
  if token.token_type == TokenType.EOF then
    .ParseErrorCustom (message ++ " at end")
  else
    .ParseErrorCustom
      ("line: " ++ toString token.line ++ " at " ++ token.lexeme ++ ", " ++ message)

/-- `Parser::consume`: advance past the expected category or produce
`Parser::error` at `peek`. -/
def consume (tks : List Token) (token_type : TokenType) (message : String) (s : PState) :
    PR Token :=
  match check tks token_type s with
  | none => .crash
  | some true =>
    (match advance tks s with
     | none => .crash
     | some (t, s1) => .ok t s1)
  | some false =>
    (match peek tks s with
     | none => .crash
     | some tok => .perr (errorFn tok message) s)

mutual

/-- `Parser::expression` (`expression → assignment`). -/
def expression (tks : List Token) : Nat → PState → PR Expr
  | 0, _ => .diverge
  | fuel + 1, s => assignment tks fuel s

/-- `Parser::assignment`: parse an equality; on an `=` token parse the
value right-recursively; only a bare `Variable` target yields an `Assign`
node, anything else is the "Invalid Assignment Target." error at the `=`
token. -/
def assignment (tks : List Token) : Nat → PState → PR Expr
  | 0, _ => .diverge
  | fuel + 1, s =>
    match equality tks fuel s with
    | .ok expr s1 =>
      (match match_token tks [TokenType.EQUAL] s1 with
       | none => .crash
       | some (some _, s2) =>
         (match previous tks s2 with
          | none => .crash
          | some equals =>
            (match assignment tks fuel s2 with
             | .ok value s3 =>
               (match expr with
                | .Variable name => .ok (.Assign name value) s3
                | _ => .perr (errorFn equals "Invalid Assignment Target.") s3)
             | .perr e s3 => .perr e s3
             | .crash => .crash
             | .diverge => .diverge))
       | some (none, s2) => .ok expr s2)
    | .perr e s1 => .perr e s1
    | .crash => .crash
    | .diverge => .diverge

/-- `Parser::equality` (`equality → comparison (("!="|"==") comparison)*`). -/
def equality (tks : List Token) : Nat → PState → PR Expr
  | 0, _ => .diverge
  | fuel + 1, s =>
    match comparison tks fuel s with
    | .ok expr s1 => equalityLoop tks fuel expr s1
    | .perr e s1 => .perr e s1
    | .crash => .crash
    | .diverge => .diverge

/-- The `while` fold of `Parser::equality`. -/
def equalityLoop (tks : List Token) : Nat → Expr → PState → PR Expr
  | 0, _, _ => .diverge
  | fuel + 1, expr, s =>
    match match_token tks [TokenType.BangEqual, TokenType.EqualEqual] s with
    | none => .crash
    | some (some _, s1) =>
      (match previous tks s1 with
       | none => .crash
       | some operator =>
         (match comparison tks fuel s1 with
          | .ok right s2 => equalityLoop tks fuel (.Binary expr operator right) s2
          | .perr e s2 => .perr e s2
          | .crash => .crash
          | .diverge => .diverge))
    | some (none, s1) => .ok expr s1

/-- `Parser::comparison`
(`comparison → term ((">"|">="|"<"|"<=") term)*`). -/
def comparison (tks : List Token) : Nat → PState → PR Expr
  | 0, _ => .diverge
  | fuel + 1, s =>
    match term tks fuel s with
    | .ok expr s1 => comparisonLoop tks fuel expr s1
    | .perr e s1 => .perr e s1
    | .crash => .crash
    | .diverge => .diverge

/-- The `while` fold of `Parser::comparison`. -/
def comparisonLoop (tks : List Token) : Nat → Expr → PState → PR Expr
  | 0, _, _ => .diverge
  | fuel + 1, expr, s =>
    match
      match_token tks
        [TokenType.GREATER, TokenType.GreaterEqual, TokenType.LESS, TokenType.LessEqual] s
    with
    | none => .crash
    | some (some _, s1) =>
      (match previous tks s1 with
       | none => .crash
       | some operator =>
         (match term tks fuel s1 with
          | .ok rightt s2 => comparisonLoop tks fuel (.Binary expr operator rightt) s2
          | .perr e s2 => .perr e s2
          | .crash => .crash
          | .diverge => .diverge))
    | some (none, s1) => .ok expr s1

/-- `Parser::term` (`term → factor (("-"|"+") factor)*`). -/
def term (tks : List Token) : Nat → PState → PR Expr
  | 0, _ => .diverge
  | fuel + 1, s =>
    match factor tks fuel s with
    | .ok expr s1 => termLoop tks fuel expr s1
    | .perr e s1 => .perr e s1
    | .crash => .crash
    | .diverge => .diverge

/-- The `while` fold of `Parser::term`. -/
def termLoop (tks : List Token) : Nat → Expr → PState → PR Expr
  | 0, _, _ => .diverge
  | fuel + 1, expr, s =>
    match match_token tks [TokenType.MINUS, TokenType.PLUS] s with
    | none => .crash
    | some (some _, s1) =>
      (match previous tks s1 with
       | none => .crash
       | some operator =>
         (match factor tks fuel s1 with
          | .ok right s2 => termLoop tks fuel (.Binary expr operator right) s2
          | .perr e s2 => .perr e s2
          | .crash => .crash
          | .diverge => .diverge))
    | some (none, s1) => .ok expr s1

/-- `Parser::factor` (`factor → unary (("*"|"/") unary)*`). -/
def factor (tks : List Token) : Nat → PState → PR Expr
  | 0, _ => .diverge
  | fuel + 1, s =>
    match unary tks fuel s with
    | .ok expr s1 => factorLoop tks fuel expr s1
    | .perr e s1 => .perr e s1
    | .crash => .crash
    | .diverge => .diverge

/-- The `while` fold of `Parser::factor`. -/
def factorLoop (tks : List Token) : Nat → Expr → PState → PR Expr
  | 0, _, _ => .diverge
  | fuel + 1, expr, s =>
    match match_token tks [TokenType.STAR, TokenType.SLASH] s with
    | none => .crash
    | some (some _, s1) =>
      (match previous tks s1 with
       | none => .crash
       | some operator =>
         (match unary tks fuel s1 with
          | .ok right s2 => factorLoop tks fuel (.Binary expr operator right) s2
          | .perr e s2 => .perr e s2
          | .crash => .crash
          | .diverge => .diverge))
    | some (none, s1) => .ok expr s1

/-- `Parser::unary`, exactly as written in parser.rs: when a `!`/`-` is
matched it reads the operator, recursively parses the operand (the `?`
operator propagates an `Err`), builds the `Unary` node — and then, because
the construction is a discarded statement (`Expr::new(...);`) and the `if`
has no `return`/`else`, falls through to `self.primary()`; the constructed
node is dropped. -/
def unary (tks : List Token) : Nat → PState → PR Expr
  | 0, _ => .diverge
  | fuel + 1, s =>
    match match_token tks [TokenType.BANG, TokenType.MINUS] s with
    | none => .crash
    | some (some _, s1) =>
      (match previous tks s1 with
       | none => .crash
       | some _operator =>
         (match unary tks fuel s1 with
          | .ok _right s2 =>
            -- `Expr::new(ExprKind::Unary { operator, right });` — value dropped
            primary tks fuel s2
          | .perr e s2 => .perr e s2
          | .crash => .crash
          | .diverge => .diverge))
    | some (none, s1) => primary tks fuel s1

/-- `Parser::primary`
(`primary → NUMBER | STRING | "true" | "false" | "nil" | "(" expression ")" | IDENTIFIER`);
the error case builds `ParseErrorToken` from `peek`. For IDENTIFIER the
source returns `self.previous()`, which is the very token `advance`
just produced. -/
def primary (tks : List Token) : Nat → PState → PR Expr
  | 0, _ => .diverge
  | fuel + 1, s =>
    match advance tks s with
    | none => .crash
    | some (token, s1) =>
      match token.token_type with
      | .FALSE | .TRUE | .NIL | .NUMBER | .STRING =>
        (match Value.from_token token with
         | some v => .ok (.Literal (some v)) s1
         | none => .crash)
      | .LeftParen =>
        (match expression tks fuel s1 with
         | .ok expr s2 =>
           (match consume tks TokenType.RightParen "Expect \x27)\x27 after expression." s2 with
            | .ok _ s3 => .ok (.Grouping expr) s3
            | .perr e s3 => .perr e s3
            | .crash => .crash
            | .diverge => .diverge)
         | .perr e s2 => .perr e s2
         | .crash => .crash
         | .diverge => .diverge)
      | .IDENTIFIER =>
        (match previous tks s1 with
         | none => .crash
         | some t => .ok (.Variable t) s1)
      | _ =>
        (match peek tks s1 with
         | none => .crash
         | some pk => .perr (.ParseErrorToken pk "Did not find a matching primary token") s1)

end

end Parser

namespace Parser

/-- The `while !self.is_at_end()` loop of `Parser::synchronize`: discard
tokens until past a `;` or at a token that starts a new statement. -/
def syncLoop (tks : List Token) : Nat → PState → PR Unit
  | 0, _ => .diverge
  | fuel + 1, s =>
    match is_at_end tks s with
    | none => .crash
    | some true => .ok () s
    | some false =>
      (match previous tks s with
       | none => .crash
       | some prev =>
         if prev.token_type == TokenType.SEMICOLON then .ok () s
         else
           match peek tks s with
           | none => .crash
           | some pk =>
             match pk.token_type with
             | .CLASS | .FUN | .VAR | .FOR | .IF | .WHILE | .PRINT | .RETURN => .ok () s
             | _ =>
               (match advance tks s with
                | none => .crash
                | some (_, s1) => syncLoop tks fuel s1))

/-- `Parser::synchronize`: one unconditional `advance`, then the recovery
loop. -/
def synchronize (tks : List Token) (fuel : Nat) (s : PState) : PR Unit :=
  match advance tks s with
  | none => .crash
  | some (_, s1) => syncLoop tks fuel s1

/-- `Parser::var_declaration`
(`varDecl → IDENTIFIER ("=" expression)? ";"`). -/
def var_declaration (tks : List Token) (fuel : Nat) (s : PState) : PR Stmt :=
  match consume tks TokenType.IDENTIFIER "Expect variable name." s with
  | .ok name s1 =>
    (match match_token tks [TokenType.EQUAL] s1 with
     | none => .crash
     | some (some _, s2) =>
       (match expression tks fuel s2 with
        | .ok init s3 =>
          (match consume tks TokenType.SEMICOLON "Expect \x27;\x27 after variable decleration" s3 with
           | .ok _ s4 => .ok (.Var name (some init)) s4
           | .perr e s4 => .perr e s4
           | .crash => .crash
           | .diverge => .diverge)
        | .perr e s3 => .perr e s3
        | .crash => .crash
        | .diverge => .diverge)
     | some (none, s2) =>
       (match consume tks TokenType.SEMICOLON "Expect \x27;\x27 after variable decleration" s2 with
        | .ok _ s3 => .ok (.Var name none) s3
        | .perr e s3 => .perr e s3
        | .crash => .crash
        | .diverge => .diverge))
  | .perr e s1 => .perr e s1
  | .crash => .crash
  | .diverge => .diverge

/-- `Parser::print_statement`. -/
def print_statement (tks : List Token) (fuel : Nat) (s : PState) : PR Stmt :=
  match expression tks fuel s with
  | .ok value s1 =>
    (match consume tks TokenType.SEMICOLON "Expect \x27;\x27 after value." s1 with
     | .ok _ s2 => .ok (.Print value) s2
     | .perr e s2 => .perr e s2
     | .crash => .crash
     | .diverge => .diverge)
  | .perr e s1 => .perr e s1
  | .crash => .crash
  | .diverge => .diverge

/-- `Parser::expression_statement`. -/
def expression_statement (tks : List Token) (fuel : Nat) (s : PState) : PR Stmt :=
  match expression tks fuel s with
  | .ok expr s1 =>
    (match consume tks TokenType.SEMICOLON "Expect \x27;\x27 after value." s1 with
     | .ok _ s2 => .ok (.Expression expr) s2
     | .perr e s2 => .perr e s2
     | .crash => .crash
     | .diverge => .diverge)
  | .perr e s1 => .perr e s1
  | .crash => .crash
  | .diverge => .diverge

/-- `Parser::statement`. -/
def statement (tks : List Token) (fuel : Nat) (s : PState) : PR Stmt :=
  match match_token tks [TokenType.PRINT] s with
  | none => .crash
  | some (some _, s1) => print_statement tks fuel s1
  | some (none, s1) => expression_statement tks fuel s1

/-- `Parser::declaration`: `var` declarations or statements; on an `Err`
the error is pushed onto the error list, the parser synchronizes, and
`None` is produced. -/
def declaration (tks : List Token) (fuel : Nat) (s : PState) : PR (Option Stmt) :=
  match match_token tks [TokenType.VAR] s with
  | none => .crash
  | some (matched, s1) =>
    let res := if matched.isSome then var_declaration tks fuel s1 else statement tks fuel s1
    match res with
    | .ok stmt s2 => .ok (some stmt) s2
    | .perr err s2 =>
      (match synchronize tks fuel { s2 with errors := s2.errors ++ [err] } with
       | .ok _ s3 => .ok none s3
       | .perr e s3 => .perr e s3
       | .crash => .crash
       | .diverge => .diverge)
    | .crash => .crash
    | .diverge => .diverge

/-- The `while !self.is_at_end()` loop of `Parser::parse`, collecting the
successfully parsed statements; at the end, `Ok` when no error was
recorded, otherwise `Err` with the first recorded error. -/
def parseLoop (tks : List Token) : Nat → List Stmt → PState → PR (List Stmt)
  | 0, _, _ => .diverge
  | fuel + 1, statements, s =>
    match is_at_end tks s with
    | none => .crash
    | some true =>
      (match s.errors with
       | [] => .ok statements s
       | e :: _ => .perr e s)
    | some false =>
      (match declaration tks fuel s with
       | .ok ostmt s1 => parseLoop tks fuel (statements ++ ostmt.toList) s1
       | .perr e s1 => .perr e s1
       | .crash => .crash
       | .diverge => .diverge)

/-- Ample fuel for every run considered in this development (each
fuel unit covers at least one grammar-rule call; the bound is a crude but
safe over-approximation, and `PR.diverge` never occurs in any theorem). -/
def parseFuel (tks : List Token) : Nat := (tks.length + 2) * 100

/-- `Parser::parse` on a token vector, starting from position 0 with no
recorded errors. -/
def parse (tks : List Token) : PR (List Stmt) :=
  parseLoop tks (parseFuel tks) [] { position := 0, errors := [] }

end Parser

/-! ## Claim C1 — Assign on an undeclared target -/

/-- C1 (refutation at a concrete input): with an empty environment — so the
target `a` has no binding — evaluating `a = 1` does NOT return the
Undefined-Variable failure; it returns the value `Number 1` (the result of
`Environment::assign` is discarded by the `let _ =` in `evaluate`). -/
theorem c1_counterexample :
    Environment.empty "a" = none
    ∧ Interp.evaluate Environment.empty
        (Expr.Assign ⟨.IDENTIFIER, "a", none, 1⟩ (Expr.Literal (some (Value.Number 1))))
      = Outcome.ok (Value.Number 1, Environment.empty) :=
  ⟨rfl, rfl⟩

/-- C1 (amended): for every Assign expression whose target name has no
binding, once the right-hand side evaluates successfully, `evaluate`
discards the Undefined-Variable failure of `Environment::assign`: it
returns the assigned value with the environment unchanged, rather than
propagating the error. -/
theorem c1_assign_discards_error (env : Environment) (name : Token) (rhs : Expr)
    (v : Value) (env1 : Environment)
    (hrhs : Interp.evaluate env rhs = .ok (v, env1))
    (hunbound : env1 name.lexeme = none) :
    Interp.evaluate env (Expr.Assign name rhs) = .ok (v, env1) := by
  simp [Interp.evaluate, hrhs, Environment.assign, Environment.get, hunbound]

/-- Witness for `c1_assign_discards_error` at a concrete input. -/
theorem c1_assign_discards_error_witness :
    Interp.evaluate Environment.empty
        (Expr.Assign ⟨.IDENTIFIER, "b", none, 3⟩ (Expr.Literal (some (Value.Number 2))))
      = .ok (Value.Number 2, Environment.empty) :=
  c1_assign_discards_error Environment.empty ⟨.IDENTIFIER, "b", none, 3⟩
    (Expr.Literal (some (Value.Number 2))) (Value.Number 2) Environment.empty rfl rfl

/-! ## Claim C2 — the unary grammar rule -/

/-- C2: `Parser::unary` on the token sequence `- 5 EOF` does not return the
`Unary` node the grammar rule prescribes: the node is built and dropped
(`Expr::new(...);` with no `return`), and the fall-through `self.primary()`
re-reads the already-consumed operand, so the whole rule returns the bare
`Literal 5` (at position 2, where `advance` no longer moves because `peek`
is EOF and `previous` is the NUMBER token). -/
theorem c2_unary_drops_node :
    Parser.unary [⟨.MINUS, "-", none, 1⟩, ⟨.NUMBER, "5", some "5", 1⟩, ⟨.EOF, "\x00", none, 1⟩]
        32 ⟨0, []⟩
      = PR.ok (Expr.Literal (some (Value.Number 5))) ⟨2, []⟩
    ∧ PR.ok (Expr.Literal (some (Value.Number 5))) (⟨2, []⟩ : PState)
      ≠ PR.ok (Expr.Unary ⟨.MINUS, "-", none, 1⟩ (Expr.Literal (some (Value.Number 5))))
          (⟨2, []⟩ : PState) := by
  refine ⟨rfl, ?_⟩
  intro h
  injection h with h1 h2
  cases h1

/-! ## Claim C3 — the end-to-end scenario -/

/-- C3: scanning `"print 1 + 2 * 3;"` yields only six tokens — the
SEMICOLON arm of `scan_token` emits nothing and `scan_tokens` appends no
EOF sentinel — so the sequence neither has 7+ tokens nor ends in EOF, and
running the parser on that output crashes with an out-of-bounds index
instead of producing the Print statement. -/
theorem c3_pipeline_breaks :
    Scanner.scanTokens "print 1 + 2 * 3;"
      = [⟨.PRINT, "print", none, 0⟩, ⟨.NUMBER, "1", some "1", 0⟩, ⟨.PLUS, "+", none, 0⟩,
         ⟨.NUMBER, "2", some "2", 0⟩, ⟨.STAR, "*", none, 0⟩, ⟨.NUMBER, "3", some "3", 0⟩]
    ∧ Parser.parse (Scanner.scanTokens "print 1 + 2 * 3;") = PR.crash := by
  have h : Scanner.scanTokens "print 1 + 2 * 3;"
      = [⟨.PRINT, "print", none, 0⟩, ⟨.NUMBER, "1", some "1", 0⟩, ⟨.PLUS, "+", none, 0⟩,
         ⟨.NUMBER, "2", some "2", 0⟩, ⟨.STAR, "*", none, 0⟩, ⟨.NUMBER, "3", some "3", 0⟩] := by
    decide
  exact ⟨h, by rw [h]; rfl⟩

/-! ## Claim C4 — parsing never reads past the end of the token vector -/

/-- C4: the Scanner's output carries no EOF sentinel, and the Parser does
read past the end of the token vector: already on the source `"1"` the
scan yields the single NUMBER token and `parse` reaches
`tokens[1]` — an out-of-bounds panic. -/
theorem c4_parse_reads_past_end :
    Scanner.scanTokens "1" = [⟨.NUMBER, "1", some "1", 0⟩]
    ∧ Parser.parse (Scanner.scanTokens "1") = PR.crash :=
  ⟨rfl, rfl⟩

/-! ## Claim C6 — the Environment contract -/

/-- C6: `define` always succeeds and overwrites any existing binding;
`assign` overwrites and succeeds exactly when the name is already bound and
otherwise fails with the Undefined-Variable error carrying the token's
line; `get` returns the bound value exactly when bound and otherwise fails
with the same error. -/
theorem c6_environment_contract (env : Environment) (token : Token) (v : Value) :
    ((Environment.define env token.lexeme v) token.lexeme = some v)
    ∧ (∀ w, env token.lexeme = some w →
        Environment.assign env token v = .ok (Environment.define env token.lexeme v)
        ∧ Environment.get env token = .ok w)
    ∧ (env token.lexeme = none →
        Environment.assign env token v
          = .error (.Runtime ("Undefined varliable " ++ token.lexeme) token.line)
        ∧ Environment.get env token
          = .error (.Runtime ("Undefined varliable " ++ token.lexeme) token.line)) := by
  refine ⟨?_, fun w hw => ⟨?_, ?_⟩, fun hn => ⟨?_, ?_⟩⟩
  · simp [Environment.define]
  · simp [Environment.assign, Environment.get, hw]
  · simp [Environment.get, hw]
  · simp [Environment.assign, Environment.get, hn]
  · simp [Environment.get, hn]

/-- Witness for `c6_environment_contract`: the bound case on a singleton
environment and the unbound case on the empty environment. -/
theorem c6_environment_contract_witness :
    ((Environment.define Environment.empty "x" (Value.Number 10)) "x" = some (Value.Number 10))
    ∧ Environment.assign (Environment.define Environment.empty "x" (Value.Number 10))
        ⟨.VAR, "x", some "x", 0⟩ (Value.Number 11)
      = .ok (Environment.define (Environment.define Environment.empty "x" (Value.Number 10))
          "x" (Value.Number 11))
    ∧ Environment.get Environment.empty ⟨.VAR, "y", some "y", 0⟩
      = .error (.Runtime "Undefined varliable y" 0) :=
  ⟨(c6_environment_contract Environment.empty ⟨.VAR, "x", some "x", 0⟩ (Value.Number 10)).1,
   ((c6_environment_contract (Environment.define Environment.empty "x" (Value.Number 10))
      ⟨.VAR, "x", some "x", 0⟩ (Value.Number 11)).2.1 (Value.Number 10) rfl).1,
   ((c6_environment_contract Environment.empty ⟨.VAR, "y", some "y", 0⟩ (Value.Number 10)).2.2
      rfl).2⟩

/-! ## Claim C7 — Assign is value-producing -/

/-- C7: whenever the right-hand side of an Assign evaluates successfully to
`v`, the Assign expression itself evaluates successfully to the same `v`
(for some resulting environment); and concretely, executing
`var a; a = 1;` leaves the binding of `a` at `Number 1`, while evaluating
the Assign expression in the post-declaration environment yields
`Number 1` together with the updated environment. -/
theorem c7_assign_value (env : Environment) (name : Token) (rhs : Expr) (v : Value)
    (env1 : Environment) (hrhs : Interp.evaluate env rhs = .ok (v, env1)) :
    (∃ env2, Interp.evaluate env (Expr.Assign name rhs) = .ok (v, env2))
    ∧ (∃ envA out,
        Interp.interpret Environment.empty
          [Stmt.Var ⟨.IDENTIFIER, "a", none, 1⟩ none,
           Stmt.Expression (Expr.Assign ⟨.IDENTIFIER, "a", none, 1⟩
             (Expr.Literal (some (Value.Number 1))))]
          = some (envA, out)
        ∧ envA "a" = some (Value.Number 1))
    ∧ Interp.evaluate (Environment.define Environment.empty "a" Value.Nil)
        (Expr.Assign ⟨.IDENTIFIER, "a", none, 1⟩ (Expr.Literal (some (Value.Number 1))))
      = .ok (Value.Number 1,
          Environment.define (Environment.define Environment.empty "a" Value.Nil) "a"
            (Value.Number 1)) := by
  refine ⟨?_, ⟨_, _, rfl, rfl⟩, rfl⟩
  have hstep : Interp.evaluate env (Expr.Assign name rhs)
      = match Environment.assign env1 name v with
        | .ok env2 => .ok (v, env2)
        | .error _ => .ok (v, env1) := by
    simp [Interp.evaluate, hrhs]
  cases hA : Environment.assign env1 name v with
  | ok env2 => exact ⟨env2, by rw [hstep, hA]⟩
  | error e => exact ⟨env1, by rw [hstep, hA]⟩

/-- Witness for `c7_assign_value` at a concrete input. -/
theorem c7_assign_value_witness :
    ∃ env2, Interp.evaluate Environment.empty
        (Expr.Assign ⟨.IDENTIFIER, "c", none, 2⟩ (Expr.Literal (some (Value.Number 4))))
      = .ok (Value.Number 4, env2) :=
  (c7_assign_value Environment.empty ⟨.IDENTIFIER, "c", none, 2⟩
    (Expr.Literal (some (Value.Number 4))) (Value.Number 4) Environment.empty rfl).1

/-! ## Claim C8 — Binary PLUS -/

/-- C8: for all operand values, Binary PLUS yields the numeric sum on two
Numbers, the concatenation on two Strings, and otherwise the Type error
"Operands must be two numbers or two strings" at the operator's line. -/
theorem c8_plus_semantics (env : Environment) (operator : Token) (l r : Value)
    (hop : operator.token_type = .PLUS) :
    Interp.evaluate env (Expr.Binary (Expr.Literal (some l)) operator (Expr.Literal (some r)))
      = match l, r with
        | .Number a, .Number b => .ok (.Number (a + b), env)
        | .String a, .String b => .ok (.String (a ++ b), env)
        | _, _ =>
          .err (.Runtime "Operands must be two numbers or two strings" operator.line) env := by
  cases l <;> cases r <;> simp [Interp.evaluate, hop]

/-- Witness for `c8_plus_semantics`: `1 + 2` evaluates to `Number 3`, while
`"a" + 1` fails with the Type error. -/
theorem c8_plus_semantics_witness :
    Interp.evaluate Environment.empty
        (Expr.Binary (Expr.Literal (some (Value.Number 1))) ⟨.PLUS, "+", none, 1⟩
          (Expr.Literal (some (Value.Number 2))))
      = .ok (Value.Number 3, Environment.empty)
    ∧ Interp.evaluate Environment.empty
        (Expr.Binary (Expr.Literal (some (Value.String "a"))) ⟨.PLUS, "+", none, 1⟩
          (Expr.Literal (some (Value.Number 1))))
      = .err (.Runtime "Operands must be two numbers or two strings" 1) Environment.empty := by
  constructor
  · have h := c8_plus_semantics Environment.empty ⟨.PLUS, "+", none, 1⟩
      (Value.Number 1) (Value.Number 2) rfl
    rw [h]
    norm_num
  · exact c8_plus_semantics Environment.empty ⟨.PLUS, "+", none, 1⟩
      (Value.String "a") (Value.Number 1) rfl

/-! ## Claim C9 — Unary BANG -/

/-- C9: for every operand value, Unary BANG yields the logical negation on
a Boolean, `true` on Nil, and otherwise the Type error "Operand must be a
boolean" at the operator's line. -/
theorem c9_bang_semantics (env : Environment) (operator : Token) (v : Value)
    (hop : operator.token_type = .BANG) :
    Interp.evaluate env (Expr.Unary operator (Expr.Literal (some v)))
      = match v with
        | .Boolean b => .ok (.Boolean !b, env)
        | .Nil => .ok (.Boolean true, env)
        | _ => .err (.Runtime "Operand must be a boolean" operator.line) env := by
  cases v <;> simp [Interp.evaluate, hop]

/-- Witness for `c9_bang_semantics`: `!false`, `!nil` and `!1`. -/
theorem c9_bang_semantics_witness :
    Interp.evaluate Environment.empty
        (Expr.Unary ⟨.BANG, "!", none, 1⟩ (Expr.Literal (some (Value.Boolean false))))
      = .ok (Value.Boolean true, Environment.empty)
    ∧ Interp.evaluate Environment.empty
        (Expr.Unary ⟨.BANG, "!", none, 1⟩ (Expr.Literal (some Value.Nil)))
      = .ok (Value.Boolean true, Environment.empty)
    ∧ Interp.evaluate Environment.empty
        (Expr.Unary ⟨.BANG, "!", none, 1⟩ (Expr.Literal (some (Value.Number 1))))
      = .err (.Runtime "Operand must be a boolean" 1) Environment.empty :=
  ⟨c9_bang_semantics Environment.empty ⟨.BANG, "!", none, 1⟩ (Value.Boolean false) rfl,
   c9_bang_semantics Environment.empty ⟨.BANG, "!", none, 1⟩ Value.Nil rfl,
   c9_bang_semantics Environment.empty ⟨.BANG, "!", none, 1⟩ (Value.Number 1) rfl⟩

/-! ## Claim C10 — stubbed statement variants panic -/

/-- C10: for every statement of variant Block, Class, Function, If, Return
or While, `execute` hits a `todo!()` and panics, and the top-level
`interpret` loop — which can only catch `Err` results — aborts the whole
run on such a statement. -/
theorem c10_stubbed_statements_crash (env : Environment) (stmt : Stmt)
    (h : stmt.isStubbed = true) :
    Interp.execute env stmt = .crash ∧ Interp.interpret env [stmt] = none := by
  cases stmt <;> simp [Stmt.isStubbed] at h <;>
    simp [Interp.execute, Interp.interpret]

/-- Witness for `c10_stubbed_statements_crash` at `Block []`. -/
theorem c10_stubbed_statements_crash_witness :
    Interp.execute Environment.empty (Stmt.Block []) = .crash
    ∧ Interp.interpret Environment.empty [Stmt.Block []] = none :=
  c10_stubbed_statements_crash Environment.empty (Stmt.Block []) rfl

/-! ## Claim C5 — the two-character-operator dispatch -/

/-- C5 (refutation at a concrete input): when `!` is the last character of
the input the scanner does not emit the one-character BANG category — it
emits an EOF-category token (the `is_at_end` arm of `match_double`). -/
theorem c5_counterexample :
    Scanner.scanTokens "!" = [⟨.EOF, "!", none, 0⟩]
    ∧ TokenType.EOF ≠ TokenType.BANG :=
  ⟨rfl, by decide⟩

/-- Helper for C5: `add_token` with a valid lexeme slice appends exactly
one token of the given category and leaves the cursor unchanged. -/
theorem add_token_spec (s : Scanner) (tt : TokenType)
    (h1 : s.start ≤ s.current) (h2 : s.current ≤ s.code.length) :
    (Scanner.add_token s tt).tokens.map Token.token_type
      = s.tokens.map Token.token_type ++ [tt]
    ∧ (Scanner.add_token s tt).current = s.current := by
  simp [Scanner.add_token, Scanner.add_token_with_literal, listSlice, h1, h2]

/-- C5 (amended): whenever the scanner reads one of `!`, `=`, `<`, `>`: if
the next character is `=` it consumes it and emits the two-character
category; if a next character exists and differs from `=` it emits the
one-character category; but when that operator is the last character of
the input it emits an EOF-category token (not the one-character category —
`match_double` returns `TokenType::EOF` at end of input). -/
theorem c5_two_char_dispatch (s : Scanner) (c : Char) (tt1 : TokenType)
    (hc : s.code[s.current]? = some c)
    (hstart : s.start ≤ s.current)
    (hmem : c = '!' ∨ c = '=' ∨ c = '<' ∨ c = '>')
    (h1 : Scanner.from_str_char c = some tt1) :
    (s.code[s.current + 1]? = some '=' →
       (Scanner.scan_token s).tokens.map Token.token_type
         = s.tokens.map Token.token_type ++ [Scanner.twoCharToken c]
       ∧ (Scanner.scan_token s).current = s.current + 2)
    ∧ (∀ d, s.code[s.current + 1]? = some d → d ≠ '=' →
       (Scanner.scan_token s).tokens.map Token.token_type
         = s.tokens.map Token.token_type ++ [tt1]
       ∧ (Scanner.scan_token s).current = s.current + 1)
    ∧ (s.code[s.current + 1]? = none →
       (Scanner.scan_token s).tokens.map Token.token_type
         = s.tokens.map Token.token_type ++ [TokenType.EOF]
       ∧ (Scanner.scan_token s).current = s.current + 1) := by
  have hlt : s.current < s.code.length := (List.getElem?_eq_some.mp hc).1
  have hα : c.isAlpha = false := by rcases hmem with rfl | rfl | rfl | rfl <;> decide
  have hδ : c.isDigit = false := by rcases hmem with rfl | rfl | rfl | rfl <;> decide
  have htw : Scanner.twoCharSecond c = some '=' := by
    rcases hmem with rfl | rfl | rfl | rfl <;> rfl
  refine ⟨fun h2 => ?_, fun d h2 hne => ?_, fun h2 => ?_⟩
  · -- next character is '=': the two-character category, cursor past both
    have hlen2 : s.current + 1 < s.code.length := (List.getElem?_eq_some.mp h2).1
    have hmd : Scanner.match_double { s with current := s.current + 1 } '=' tt1
        (Scanner.twoCharToken c)
        = (Scanner.twoCharToken c, { s with current := s.current + 2 }) := by
      simp [Scanner.match_double, Scanner.is_at_end, Scanner.char_at, h2]
      omega
    have hscan : Scanner.scan_token s
        = Scanner.add_token { s with current := s.current + 2 } (Scanner.twoCharToken c) := by
      simp [Scanner.scan_token, Scanner.advance, hc, hα, hδ, h1, htw, hmd]
    rw [hscan]
    exact add_token_spec _ _ (by simp; omega) (by simp; omega)
  · -- a next character other than '=': the one-character category
    have hlen2 : s.current + 1 < s.code.length := (List.getElem?_eq_some.mp h2).1
    have hmd : Scanner.match_double { s with current := s.current + 1 } '=' tt1
        (Scanner.twoCharToken c)
        = (tt1, { s with current := s.current + 1 }) := by
      simp [Scanner.match_double, Scanner.is_at_end, Scanner.char_at, h2]
      rw [if_neg (by omega), if_neg hne]
    have hscan : Scanner.scan_token s
        = Scanner.add_token { s with current := s.current + 1 } tt1 := by
      simp [Scanner.scan_token, Scanner.advance, hc, hα, hδ, h1, htw, hmd]
    rw [hscan]
    exact add_token_spec _ _ (by simp; omega) (by simp; omega)
  · -- the operator was the last character of the input: an EOF token
    have hlen2 : s.code.length ≤ s.current + 1 := List.getElem?_eq_none_iff.mp h2
    have hmd : Scanner.match_double { s with current := s.current + 1 } '=' tt1
        (Scanner.twoCharToken c)
        = (TokenType.EOF, { s with current := s.current + 1 }) := by
      simp [Scanner.match_double, Scanner.is_at_end]
      omega
    have hscan : Scanner.scan_token s
        = Scanner.add_token { s with current := s.current + 1 } TokenType.EOF := by
      simp [Scanner.scan_token, Scanner.advance, hc, hα, hδ, h1, htw, hmd]
    rw [hscan]
    exact add_token_spec _ _ (by simp; omega) (by simp; omega)

/-- Witness for `c5_two_char_dispatch`: scanning the first token of `"!="`
consumes both characters and emits the BangEqual category. -/
theorem c5_two_char_dispatch_witness :
    (Scanner.scan_token (Scanner.new "!=")).tokens.map Token.token_type = [TokenType.BangEqual]
    ∧ (Scanner.scan_token (Scanner.new "!=")).current = 2 := by
  have h := (c5_two_char_dispatch (Scanner.new "!=") '!' .BANG rfl (by decide)
    (Or.inl rfl) rfl).1 rfl
  simpa using h
